import Mathlib

/-!
Verification development for the trace-ingestion front end of
`src/trace_processor/forwarding_trace_parser.cc`: the format sniffer
(`GuessTraceType`) and the forwarding dispatcher
(`ForwardingTraceParser::Parse` / `NotifyEndOfFile`).

Bytes are modelled as `Nat` values below 256; a chunk (`TraceBlobView`)
is a `List Nat`. Strings handled by the sniffer are modelled as the byte
lists of their ASCII contents.
-/

namespace Perfetto

/-- Trace kinds, mirroring the `TraceType` enumeration used by
`GuessTraceType` and the dispatcher switch. -/
inductive TraceType
  | kJsonTraceType
  | kProtoTraceType
  | kNinjaLogTraceType
  | kFuchsiaTraceType
  | kSystraceTraceType
  | kGzipTraceType
  | kCtraceTraceType
  | kUnknownTraceType
deriving DecidableEq, Repr

/-- Boolean prefix test on byte lists, mirroring `base::StartsWith`. -/
def listStartsWith {α : Type} [BEq α] (l p : List α) : Bool :=
  p.isPrefixOf l

/-- Boolean substring test on byte lists, mirroring `base::Contains`
(`str.find(needle) != npos`). -/
def listContains {α : Type} [BEq α] : List α → List α → Bool
  | [], p => p.isPrefixOf ([] : List α)
  | a :: t, p => p.isPrefixOf (a :: t) || listContains t p

/-- C `isspace` in the default locale on an unsigned char: space (0x20)
and the control characters 0x09..0x0D. Mirrors the `isspace` wrapper in
the anonymous namespace. -/
def isspaceByte (c : Nat) : Bool :=
  decide (c = 0x20 ∨ (0x09 ≤ c ∧ c ≤ 0x0D))

/-- Mirrors `RemoveWhitespace`: erase every byte for which `isspace`
holds. -/
def RemoveWhitespace (str : List Nat) : List Nat :=
  str.filter (fun c => !(isspaceByte c))

/-- Little-endian read of the first 8 bytes into a 64-bit word, mirroring
the `memcpy` of `data` into `first_word`. -/
def readLE64 (bs : List Nat) : Nat :=
  (bs.take 8).reverse.foldl (fun acc b => acc * 256 + b) 0

/-- Fuchsia trace magic number `kFuchsiaMagicNumber`. -/
def kFuchsiaMagicNumber : Nat := 0x0016547846040010

/-- Bytes of the JSON object signature: left brace, double quote. -/
def kJsonObjectStart : List Nat := [0x7b, 0x22]

/-- Bytes of the JSON array signature: left bracket, left brace, double
quote. -/
def kJsonArrayStart : List Nat := [0x5b, 0x7b, 0x22]

/-- Bytes of the ASCII string\x20"# tracer". -/
def kTracerMarker : List Nat := [0x23, 0x20, 0x74, 0x72, 0x61, 0x63, 0x65, 0x72]

/-- Bytes of the ASCII string\x20"<!DOCTYPE html>". -/
def kDoctypeHtml : List Nat :=
  [0x3c, 0x21, 0x44, 0x4f, 0x43, 0x54, 0x59, 0x50, 0x45, 0x20,
   0x68, 0x74, 0x6d, 0x6c, 0x3e]

/-- Bytes of the ASCII string\x20"<html>". -/
def kHtmlOpen : List Nat := [0x3c, 0x68, 0x74, 0x6d, 0x6c, 0x3e]

/-- Bytes of the ASCII string\x20"TRACE:". -/
def kTraceColon : List Nat := [0x54, 0x52, 0x41, 0x43, 0x45, 0x3a]

/-- Bytes of the ASCII string\x20"# ninja log". -/
def kNinjaLogMagic : List Nat :=
  [0x23, 0x20, 0x6e, 0x69, 0x6e, 0x6a, 0x61, 0x20, 0x6c, 0x6f, 0x67]

/-- A single ASCII space byte. -/
def kSingleSpace : List Nat := [0x20]

/-- The two gzip magic bytes 0x1F 0x8B. -/
def kGzipMagic : List Nat := [0x1f, 0x8b]

/-- The proto lead byte 0x0A. -/
def kProtoLeadByte : List Nat := [0x0a]

/-- Embedding of `GuessTraceType(const uint8_t* data, size_t size)`:
empty input is unknown; `start` is the first `min(size, 32)` bytes; an
input of at least 8 bytes whose little-endian first word equals the
Fuchsia magic is Fuchsia; then the whitespace-stripped window is tested
for the JSON signatures, then the raw window for the remaining textual
signatures, in source order. -/
def GuessTraceType (data : List Nat) : TraceType :=
  if data.length = 0 then TraceType.kUnknownTraceType
  else
    let start := data.take 32
    if 8 ≤ data.length ∧ readLE64 data = kFuchsiaMagicNumber then
      TraceType.kFuchsiaTraceType
    else
      let start_minus_white_space := RemoveWhitespace start
      if listStartsWith start_minus_white_space kJsonObjectStart then
        TraceType.kJsonTraceType
      else if listStartsWith start_minus_white_space kJsonArrayStart then
        TraceType.kJsonTraceType
      else if listContains start kTracerMarker then
        TraceType.kSystraceTraceType
      else if listStartsWith start kDoctypeHtml ∨ listStartsWith start kHtmlOpen then
        TraceType.kSystraceTraceType
      else if listContains start kTraceColon then
        TraceType.kCtraceTraceType
      else if listStartsWith start kNinjaLogMagic then
        TraceType.kNinjaLogTraceType
      else if listStartsWith start kSingleSpace then
        TraceType.kSystraceTraceType
      else if listStartsWith start kGzipMagic then
        TraceType.kGzipTraceType
      else if listStartsWith start kProtoLeadByte then
        TraceType.kProtoTraceType
      else
        TraceType.kUnknownTraceType

/-- Transcription of the ten-rule precedence table of spec section 4.1,
written from the spec's words (first match wins, over the 32-byte
window): (1) Fuchsia magic on inputs of at least 8 bytes; (2) JSON
signatures on the whitespace-stripped prefix; (3) tracer marker
anywhere in the raw prefix; (4) HTML openers; (5) TRACE: anywhere;
(6) ninja log header; (7) leading space; (8) gzip magic; (9) proto lead
byte 0x0A; (10) otherwise unknown. The spec's table has no separate
empty-input rule: no rule matches an empty input, so rule 10 yields
unknown there. -/
def specSniffRules (data : List Nat) : TraceType :=
  let start := data.take 32
  if 8 ≤ data.length ∧ readLE64 data = kFuchsiaMagicNumber then
    TraceType.kFuchsiaTraceType
  else
    let start_minus_white_space := RemoveWhitespace start
    if listStartsWith start_minus_white_space kJsonObjectStart then
      TraceType.kJsonTraceType
    else if listStartsWith start_minus_white_space kJsonArrayStart then
      TraceType.kJsonTraceType
    else if listContains start kTracerMarker then
      TraceType.kSystraceTraceType
    else if listStartsWith start kDoctypeHtml ∨ listStartsWith start kHtmlOpen then
      TraceType.kSystraceTraceType
    else if listContains start kTraceColon then
      TraceType.kCtraceTraceType
    else if listStartsWith start kNinjaLogMagic then
      TraceType.kNinjaLogTraceType
    else if listStartsWith start kSingleSpace then
      TraceType.kSystraceTraceType
    else if listStartsWith start kGzipMagic then
      TraceType.kGzipTraceType
    else if listStartsWith start kProtoLeadByte then
      TraceType.kProtoTraceType
    else
      TraceType.kUnknownTraceType

/-- C1: for every byte input, `GuessTraceType` returns the kind given by
the first matching rule of the ten-rule precedence table of spec
section 4.1, evaluated in exactly that order, with unknown for the empty
input and for inputs matching no rule. -/
theorem guessTraceType_eq_spec_table :
    ∀ data : List Nat, GuessTraceType data = specSniffRules data := by
  intro data
  cases data with
  | nil => rfl
  | cons a t => rfl

/-- Capture-configuration sorting mode (`SortingMode` in the trace
processor config). -/
inductive SortingMode
  | kDefaultHeuristics
  | kForceFlushPeriodWindowedSort
  | kForceFullSort
deriving DecidableEq, Repr

namespace TraceSorter

/-- Sorting mode of the trace sorter (`TraceSorter::SortingMode`). -/
inductive SortingMode
  | kDefault
  | kFullSort
deriving DecidableEq, Repr

end TraceSorter

/-- Mirrors `ConvertSortingMode`: the default heuristics and the
force-flush-period-windowed configurations map to the sorter's default
(windowed) mode; force-full-sort maps to full sort. -/
def ConvertSortingMode : SortingMode → TraceSorter.SortingMode
  | SortingMode.kDefaultHeuristics => TraceSorter.SortingMode.kDefault
  | SortingMode.kForceFlushPeriodWindowedSort => TraceSorter.SortingMode.kDefault
  | SortingMode.kForceFullSort => TraceSorter.SortingMode.kFullSort

/-- The reader (`ChunkedTraceReader`) bound by the dispatcher switch:
which tokenizer/reader object `reader_` points to after binding. -/
inductive ReaderKind
  | jsonTraceTokenizer
  | protoTraceReader
  | ninjaLogReader
  | fuchsiaTraceTokenizer
  | systraceReader
  | gzipReader
deriving DecidableEq, Repr

/-- Observable side effects of the dispatcher, in the order the code
performs them: a `GuessTraceType` call, a `TraceSorter` construction, a
`SetPidZeroIgnoredForIdleProcess` call on the process tracker, a
`reader_->Parse(blob)` forward, and a `reader_->NotifyEndOfFile()`
forward. -/
inductive Event
  | sniff (t : TraceType)
  | sorterSet (m : TraceSorter.SortingMode)
  | pidZeroIgnored
  | readerParse (blob : List Nat)
  | readerEof
deriving DecidableEq, Repr

/-- The parts of `TraceProcessorContext` the dispatcher consults: which
optional tokenizers/parsers are present in this build configuration
(`json_trace_tokenizer`, `json_trace_parser`, `fuchsia_trace_tokenizer`,
`fuchsia_trace_parser`, `systrace_trace_parser`, `gzip_trace_parser` as
non-null pointers), and `config.sorting_mode`. -/
structure Context where
  json_trace_tokenizer_present : Bool
  json_trace_parser_present : Bool
  fuchsia_trace_tokenizer_present : Bool
  fuchsia_trace_parser_present : Bool
  systrace_reader_present : Bool
  gzip_reader_present : Bool
  sorting_mode : SortingMode
deriving DecidableEq, Repr

/-- State of a `ForwardingTraceParser` together with the context state it
mutates: the bound reader (`reader_`, null before first successful
binding), the sorter installed into the context (`context_->sorter`),
and the log of observable side effects performed so far. -/
structure ParserState where
  reader : Option ReaderKind
  sorter : Option TraceSorter.SortingMode
  log : List Event
deriving DecidableEq, Repr

/-- A freshly constructed `ForwardingTraceParser`: no reader bound, no
sorter installed, no side effects performed. -/
def initState : ParserState :=
  { reader := none, sorter := none, log := [] }

/-- Result of `util::Status`: success or an error carrying a message. -/
inductive Status
  | ok
  | err (msg : String)
deriving DecidableEq, Repr

/-- Error message `kNoZlibErr`. -/
def kNoZlibErr : String :=
  "Cannot open compressed trace. zlib not enabled in the build config"

/-- Error message for the unknown-trace-type branch. -/
def kUnknownTraceTypeErr : String := "Unknown trace type provided (ERR:fmt)"

/-- Error message for JSON support compiled out. -/
def kJsonDisabledErr : String := "JSON support is disabled"

/-- Error message for Fuchsia support compiled out. -/
def kFuchsiaDisabledErr : String := "Fuchsia support is disabled"

/-- Error message for systrace support compiled out. -/
def kSystraceDisabledErr : String := "Systrace support is disabled"

/-- The `switch (trace_type)` body of the first `Parse` call: binds the
reader and, where the source does so, constructs the sorter and notifies
the process tracker, then forwards the blob to the bound reader; on an
unavailable codec or unknown type it returns the error without binding.
`s1` is the state after the `GuessTraceType` call has been logged. -/
def BindOnFirstChunk (ctx : Context) (t : TraceType) (s1 : ParserState)
    (blob : List Nat) : Status × ParserState :=
  match t with
  | TraceType.kJsonTraceType =>
    if ctx.json_trace_tokenizer_present && ctx.json_trace_parser_present then
      (Status.ok,
       { s1 with
         reader := some ReaderKind.jsonTraceTokenizer,
         sorter := some TraceSorter.SortingMode.kFullSort,
         log := s1.log ++ [Event.sorterSet TraceSorter.SortingMode.kFullSort,
                           Event.readerParse blob] })
    else
      (Status.err kJsonDisabledErr, s1)
  | TraceType.kProtoTraceType =>
    (Status.ok,
     { s1 with
       reader := some ReaderKind.protoTraceReader,
       sorter := some (ConvertSortingMode ctx.sorting_mode),
       log := s1.log ++ [Event.sorterSet (ConvertSortingMode ctx.sorting_mode),
                         Event.pidZeroIgnored,
                         Event.readerParse blob] })
  | TraceType.kNinjaLogTraceType =>
    (Status.ok,
     { s1 with
       reader := some ReaderKind.ninjaLogReader,
       log := s1.log ++ [Event.readerParse blob] })
  | TraceType.kFuchsiaTraceType =>
    if ctx.fuchsia_trace_parser_present && ctx.fuchsia_trace_tokenizer_present then
      (Status.ok,
       { s1 with
         reader := some ReaderKind.fuchsiaTraceTokenizer,
         sorter := some TraceSorter.SortingMode.kFullSort,
         log := s1.log ++ [Event.sorterSet TraceSorter.SortingMode.kFullSort,
                           Event.readerParse blob] })
    else
      (Status.err kFuchsiaDisabledErr, s1)
  | TraceType.kSystraceTraceType =>
    if ctx.systrace_reader_present then
      (Status.ok,
       { s1 with
         reader := some ReaderKind.systraceReader,
         log := s1.log ++ [Event.pidZeroIgnored, Event.readerParse blob] })
    else
      (Status.err kSystraceDisabledErr,
       { s1 with log := s1.log ++ [Event.pidZeroIgnored] })
  | TraceType.kGzipTraceType =>
    if ctx.gzip_reader_present then
      (Status.ok,
       { s1 with
         reader := some ReaderKind.gzipReader,
         log := s1.log ++ [Event.readerParse blob] })
    else
      (Status.err kNoZlibErr, s1)
  | TraceType.kCtraceTraceType =>
    if ctx.gzip_reader_present then
      (Status.ok,
       { s1 with
         reader := some ReaderKind.gzipReader,
         log := s1.log ++ [Event.readerParse blob] })
    else
      (Status.err kNoZlibErr, s1)
  | TraceType.kUnknownTraceType =>
    (Status.err kUnknownTraceTypeErr, s1)

/-- Embedding of `ForwardingTraceParser::Parse`: if no reader is bound
yet, guess the trace type of the blob and run the binding switch;
otherwise forward the blob directly to the bound reader (modelled as
always succeeding, since the concrete readers are out of scope). -/
def Parse (ctx : Context) (s : ParserState) (blob : List Nat) :
    Status × ParserState :=
  match s.reader with
  | some _ =>
    (Status.ok, { s with log := s.log ++ [Event.readerParse blob] })
  | none =>
    BindOnFirstChunk ctx (GuessTraceType blob)
      { s with log := s.log ++ [Event.sniff (GuessTraceType blob)] } blob

/-- Embedding of `ForwardingTraceParser::NotifyEndOfFile`, which runs
`reader_->NotifyEndOfFile()`. Before any successful `Parse`, `reader_`
is a null `unique_ptr` and the dereference cannot proceed to any defined
state; that is modelled as `none`. -/
def NotifyEndOfFile (s : ParserState) : Option ParserState :=
  match s.reader with
  | none => none
  | some _ => some { s with log := s.log ++ [Event.readerEof] }

/-- Runs `Parse` over a sequence of chunks, keeping only the state (the
statuses of the individual calls are recoverable from `Parse` itself). -/
def ParseSeq (ctx : Context) (s : ParserState) : List (List Nat) → ParserState
  | [] => s
  | b :: bs => ParseSeq ctx (Parse ctx s b).2 bs

/-- Number of `GuessTraceType` invocations recorded in a log. -/
def countSniff : List Event → Nat
  | [] => 0
  | Event.sniff _ :: t => countSniff t + 1
  | _ :: t => countSniff t

/-- Number of `SetPidZeroIgnoredForIdleProcess` calls recorded in a
log. -/
def countPidZero : List Event → Nat
  | [] => 0
  | Event.pidZeroIgnored :: t => countPidZero t + 1
  | _ :: t => countPidZero t

/-- Number of chunks forwarded to the bound reader recorded in a log. -/
def countForward : List Event → Nat
  | [] => 0
  | Event.readerParse _ :: t => countForward t + 1
  | _ :: t => countForward t

/-- Holds when a `SetPidZeroIgnoredForIdleProcess` call occurs in the log
and no chunk is forwarded to a reader before the first such call. -/
def pidZeroPrecedesForwards : List Event → Bool
  | [] => false
  | Event.pidZeroIgnored :: _ => true
  | Event.readerParse _ :: _ => false
  | _ :: t => pidZeroPrecedesForwards t

/-- Boolean substring test lifted to strings, used to state the stable
error-message markers. -/
def strContains (haystack needle : String) : Bool :=
  listContains haystack.data needle.data

/-- The grep-able marker kept inside `kNoZlibErr`. -/
def kZlibMarker : String := "zlib not enabled"

/-- The grep-able marker kept inside the unknown-trace-type error, used
by the UI error dialog. -/
def kErrFmtMarker : String := "(ERR:fmt)"

/-- A build configuration with every optional tokenizer/parser present
and the default-heuristics sorting mode. -/
def ctxAllOn : Context :=
  { json_trace_tokenizer_present := true,
    json_trace_parser_present := true,
    fuchsia_trace_tokenizer_present := true,
    fuchsia_trace_parser_present := true,
    systrace_reader_present := true,
    gzip_reader_present := true,
    sorting_mode := SortingMode.kDefaultHeuristics }

/-- A build configuration with every optional tokenizer/parser compiled
out. -/
def ctxAllOff : Context :=
  { json_trace_tokenizer_present := false,
    json_trace_parser_present := false,
    fuchsia_trace_tokenizer_present := false,
    fuchsia_trace_parser_present := false,
    systrace_reader_present := false,
    gzip_reader_present := false,
    sorting_mode := SortingMode.kDefaultHeuristics }

/-- A dispatcher state already bound to the proto reader, as left by a
successful first `Parse` of a proto chunk (log omitted for brevity of
the concrete witnesses). -/
def boundProtoState : ParserState :=
  { reader := some ReaderKind.protoTraceReader,
    sorter := some TraceSorter.SortingMode.kDefault,
    log := [] }

/-- Bytes of a small JSON object chunk: left brace, quote, a, quote,
colon, 1, right brace. -/
def kJsonChunk : List Nat := [0x7b, 0x22, 0x61, 0x22, 0x3a, 0x31, 0x7d]

theorem countSniff_append (l1 l2 : List Event) :
    countSniff (l1 ++ l2) = countSniff l1 + countSniff l2 := by
  induction l1 with
  | nil => simp [countSniff]
  | cons e t ih => cases e <;> simp_arith [countSniff, ih]

theorem countPidZero_append (l1 l2 : List Event) :
    countPidZero (l1 ++ l2) = countPidZero l1 + countPidZero l2 := by
  induction l1 with
  | nil => simp [countPidZero]
  | cons e t ih => cases e <;> simp_arith [countPidZero, ih]

theorem countForward_append (l1 l2 : List Event) :
    countForward (l1 ++ l2) = countForward l1 + countForward l2 := by
  induction l1 with
  | nil => simp [countForward]
  | cons e t ih => cases e <;> simp_arith [countForward, ih]

theorem countSniff_map_forward (bs : List (List Nat)) :
    countSniff (bs.map Event.readerParse) = 0 := by
  induction bs with
  | nil => rfl
  | cons b t ih => simpa [countSniff] using ih

theorem countPidZero_map_forward (bs : List (List Nat)) :
    countPidZero (bs.map Event.readerParse) = 0 := by
  induction bs with
  | nil => rfl
  | cons b t ih => simpa [countPidZero] using ih

theorem pidZeroPrecedesForwards_append (l1 l2 : List Event)
    (h : pidZeroPrecedesForwards l1 = true) :
    pidZeroPrecedesForwards (l1 ++ l2) = true := by
  induction l1 with
  | nil => simp [pidZeroPrecedesForwards] at h
  | cons e t ih =>
    cases e <;> simp_all [pidZeroPrecedesForwards]

theorem parse_bound (ctx : Context) (s : ParserState) (r : ReaderKind)
    (h : s.reader = some r) (blob : List Nat) :
    Parse ctx s blob =
      (Status.ok, { s with log := s.log ++ [Event.readerParse blob] }) := by
  unfold Parse
  rw [h]

theorem parseSeq_bound (ctx : Context) (r : ReaderKind) :
    ∀ (bs : List (List Nat)) (s : ParserState), s.reader = some r →
      ParseSeq ctx s bs = { s with log := s.log ++ bs.map Event.readerParse } := by
  intro bs
  induction bs with
  | nil => intro s _; simp [ParseSeq]
  | cons b t ih =>
    intro s h
    rw [ParseSeq, parse_bound ctx s r h b]
    show ParseSeq ctx { s with log := s.log ++ [Event.readerParse b] } t = _
    rw [ih { s with log := s.log ++ [Event.readerParse b] } h]
    simp

theorem parse_unbound (ctx : Context) (s : ParserState) (b : List Nat)
    (h : s.reader = none) :
    Parse ctx s b =
      BindOnFirstChunk ctx (GuessTraceType b)
        { s with log := s.log ++ [Event.sniff (GuessTraceType b)] } b := by
  unfold Parse
  rw [h]

theorem countSniff_bind (ctx : Context) (t : TraceType) (s1 : ParserState)
    (b : List Nat) :
    countSniff (BindOnFirstChunk ctx t s1 b).2.log = countSniff s1.log := by
  cases t <;> simp only [BindOnFirstChunk] <;> try split
  all_goals simp [countSniff_append, countSniff]

theorem countSniff_parse_unbound (ctx : Context) (s : ParserState) (b : List Nat)
    (h : s.reader = none) :
    countSniff (Parse ctx s b).2.log = countSniff s.log + 1 := by
  rw [parse_unbound ctx s b h, countSniff_bind]
  simp [countSniff_append, countSniff]

theorem bind_fail_state (ctx : Context) (t : TraceType) (s1 : ParserState)
    (b : List Nat) (hf : (BindOnFirstChunk ctx t s1 b).1 ≠ Status.ok) :
    (BindOnFirstChunk ctx t s1 b).2.reader = s1.reader
    ∧ (BindOnFirstChunk ctx t s1 b).2.sorter = s1.sorter
    ∧ countForward (BindOnFirstChunk ctx t s1 b).2.log = countForward s1.log := by
  cases t <;> simp only [BindOnFirstChunk] at hf ⊢ <;> try split
  all_goals simp_all [countForward_append, countForward]

/-- C2: the sort mode is chosen at first binding from the sniffed kind
and the capture configuration: JSON and Fuchsia kinds always get a
full-sort sorter regardless of configuration; a proto kind gets the
converted configuration mode, and the conversion yields full sort
exactly for the force-full-sort configuration (the default heuristics
and the force-flush-period-windowed configurations yield the default
windowed mode). -/
theorem sort_mode_selection (ctx : Context) (s : ParserState) (b : List Nat)
    (h : s.reader = none) :
    (GuessTraceType b = TraceType.kJsonTraceType →
       ctx.json_trace_tokenizer_present = true →
       ctx.json_trace_parser_present = true →
       (Parse ctx s b).2.sorter = some TraceSorter.SortingMode.kFullSort)
    ∧ (GuessTraceType b = TraceType.kFuchsiaTraceType →
       ctx.fuchsia_trace_tokenizer_present = true →
       ctx.fuchsia_trace_parser_present = true →
       (Parse ctx s b).2.sorter = some TraceSorter.SortingMode.kFullSort)
    ∧ (GuessTraceType b = TraceType.kProtoTraceType →
       (Parse ctx s b).2.sorter = some (ConvertSortingMode ctx.sorting_mode))
    ∧ (∀ m : SortingMode,
       ConvertSortingMode m = TraceSorter.SortingMode.kFullSort ↔
         m = SortingMode.kForceFullSort) := by
  refine ⟨?_, ?_, ?_, ?_⟩
  · intro ht h1 h2
    rw [parse_unbound ctx s b h, ht]
    simp [BindOnFirstChunk, h1, h2]
  · intro ht h1 h2
    rw [parse_unbound ctx s b h, ht]
    simp [BindOnFirstChunk, h1, h2]
  · intro ht
    rw [parse_unbound ctx s b h, ht]
    simp [BindOnFirstChunk]
  · intro m
    cases m <;> simp [ConvertSortingMode]

/-- Witness for C2 at concrete inputs: a proto chunk under the
default-heuristics configuration binds the sorter in the default
windowed mode. -/
theorem sort_mode_selection_witness :
    (Parse ctxAllOn initState [0x0a]).2.sorter =
      some TraceSorter.SortingMode.kDefault :=
  (sort_mode_selection ctxAllOn initState [0x0a] rfl).2.2.1 (by decide)

/-- C3: once a first `Parse` call has successfully bound a reader, every
later `Parse` call succeeds, forwards its chunk directly to the bound
reader, runs the sniffer zero further times, and leaves the bound reader
and sort mode unchanged over any sequence of further chunks. -/
theorem trace_kind_bound_once (ctx : Context) (s : ParserState)
    (r : ReaderKind) (h : s.reader = some r) (b : List Nat)
    (bs : List (List Nat)) :
    (Parse ctx s b).1 = Status.ok
    ∧ (Parse ctx s b).2.reader = s.reader
    ∧ (Parse ctx s b).2.sorter = s.sorter
    ∧ (Parse ctx s b).2.log = s.log ++ [Event.readerParse b]
    ∧ countSniff (ParseSeq ctx s bs).log = countSniff s.log
    ∧ (ParseSeq ctx s bs).reader = s.reader
    ∧ (ParseSeq ctx s bs).sorter = s.sorter := by
  have hp := parse_bound ctx s r h b
  have hs := parseSeq_bound ctx r bs s h
  refine ⟨by rw [hp], by rw [hp], by rw [hp], by rw [hp], ?_, by rw [hs], by rw [hs]⟩
  rw [hs]
  simp [countSniff_append, countSniff_map_forward]

/-- Witness for C3 at concrete inputs: from a state bound to the proto
reader, a further chunk is forwarded unchanged and two further chunks
leave the sniff count, reader and sorter untouched. -/
theorem trace_kind_bound_once_witness :
    (Parse ctxAllOn boundProtoState [0x01]).1 = Status.ok
    ∧ (Parse ctxAllOn boundProtoState [0x01]).2.reader = boundProtoState.reader
    ∧ (Parse ctxAllOn boundProtoState [0x01]).2.sorter = boundProtoState.sorter
    ∧ (Parse ctxAllOn boundProtoState [0x01]).2.log =
        boundProtoState.log ++ [Event.readerParse [0x01]]
    ∧ countSniff (ParseSeq ctxAllOn boundProtoState [[0x02], [0x03]]).log =
        countSniff boundProtoState.log
    ∧ (ParseSeq ctxAllOn boundProtoState [[0x02], [0x03]]).reader =
        boundProtoState.reader
    ∧ (ParseSeq ctxAllOn boundProtoState [[0x02], [0x03]]).sorter =
        boundProtoState.sorter :=
  trace_kind_bound_once ctxAllOn boundProtoState ReaderKind.protoTraceReader
    rfl [0x01] [[0x02], [0x03]]

/-- Counterexample to C4 as stated: after a first `Parse` call fails on
an unrecognizable chunk, a second `Parse` call on a later chunk runs the
classification guess again (two sniffer invocations are recorded), and
the second guess even binds the proto reader. -/
theorem resniff_after_failure_counterexample :
    (Parse ctxAllOn initState [0xff]).1 ≠ Status.ok
    ∧ countSniff
        (Parse ctxAllOn (Parse ctxAllOn initState [0xff]).2 [0x0a]).2.log = 2
    ∧ (Parse ctxAllOn (Parse ctxAllOn initState [0xff]).2 [0x0a]).2.reader =
        some ReaderKind.protoTraceReader := by
  decide

/-- C4 amended: a failed first `Parse` call (unknown kind or unavailable
codec) returns its error to the caller with no retry inside the call,
leaving the pipeline unbound, the sorter unchanged, and no chunk
forwarded; because the failure is not recorded, a subsequent `Parse`
call runs the classification guess again on its chunk. -/
theorem failure_leaves_unbound (ctx : Context) (s : ParserState)
    (b : List Nat) (h : s.reader = none)
    (hfail : (Parse ctx s b).1 ≠ Status.ok) :
    (Parse ctx s b).2.reader = none
    ∧ (Parse ctx s b).2.sorter = s.sorter
    ∧ countForward (Parse ctx s b).2.log = countForward s.log
    ∧ countSniff (Parse ctx s b).2.log = countSniff s.log + 1
    ∧ countSniff (Parse ctx (Parse ctx s b).2 [0x0a]).2.log =
        countSniff s.log + 2 := by
  rw [parse_unbound ctx s b h] at hfail
  have hb := bind_fail_state ctx (GuessTraceType b)
    { s with log := s.log ++ [Event.sniff (GuessTraceType b)] } b hfail
  have hreader : (Parse ctx s b).2.reader = none := by
    rw [parse_unbound ctx s b h]
    rw [hb.1]
    exact h
  refine ⟨hreader, ?_, ?_, countSniff_parse_unbound ctx s b h, ?_⟩
  · rw [parse_unbound ctx s b h, hb.2.1]
  · rw [parse_unbound ctx s b h, hb.2.2]
    simp [countForward_append, countForward]
  · rw [countSniff_parse_unbound ctx (Parse ctx s b).2 [0x0a] hreader,
        countSniff_parse_unbound ctx s b h]

/-- Witness for C4's amended theorem at concrete inputs: an
unrecognizable first chunk leaves the pipeline unbound and a proto chunk
fed afterwards is sniffed again. -/
theorem failure_leaves_unbound_witness :
    (Parse ctxAllOn initState [0xff]).2.reader = none
    ∧ countSniff
        (Parse ctxAllOn (Parse ctxAllOn initState [0xff]).2 [0x0a]).2.log =
      countSniff initState.log + 2 :=
  ⟨(failure_leaves_unbound ctxAllOn initState [0xff] rfl (by decide)).1,
   (failure_leaves_unbound ctxAllOn initState [0xff] rfl (by decide)).2.2.2.2⟩

/-- C5: when the first chunk sniffs as gzip or ctrace and the gzip
reader is not available in the build, the first `Parse` call fails with
the no-zlib error, whose text contains the zlib marker and differs from
the unrecognized-format error. -/
theorem gzip_no_zlib_error (ctx : Context) (s : ParserState) (b : List Nat)
    (h : s.reader = none)
    (hk : GuessTraceType b = TraceType.kGzipTraceType ∨
          GuessTraceType b = TraceType.kCtraceTraceType)
    (hgz : ctx.gzip_reader_present = false) :
    (Parse ctx s b).1 = Status.err kNoZlibErr
    ∧ strContains kNoZlibErr kZlibMarker = true
    ∧ kNoZlibErr ≠ kUnknownTraceTypeErr := by
  refine ⟨?_, by decide, by decide⟩
  rcases hk with hk | hk <;>
    rw [parse_unbound ctx s b h, hk] <;>
    simp [BindOnFirstChunk, hgz]

/-- Witness for C5 at concrete inputs: a gzip-magic chunk under a build
with every optional codec absent yields the no-zlib error. -/
theorem gzip_no_zlib_error_witness :
    (Parse ctxAllOff initState [0x1f, 0x8b, 0x08, 0x00]).1 =
      Status.err kNoZlibErr
    ∧ strContains kNoZlibErr kZlibMarker = true
    ∧ kNoZlibErr ≠ kUnknownTraceTypeErr :=
  gzip_no_zlib_error ctxAllOff initState [0x1f, 0x8b, 0x08, 0x00] rfl
    (Or.inl (by decide)) rfl

/-- C6: when the sniffer classifies the first chunk as unknown, the
first `Parse` call returns an error, not success, and the error message
contains the literal grep-able marker used by the UI error dialog. -/
theorem unknown_type_err_fmt_marker (ctx : Context) (s : ParserState)
    (b : List Nat) (h : s.reader = none)
    (hk : GuessTraceType b = TraceType.kUnknownTraceType) :
    (Parse ctx s b).1 = Status.err kUnknownTraceTypeErr
    ∧ (Parse ctx s b).1 ≠ Status.ok
    ∧ strContains kUnknownTraceTypeErr kErrFmtMarker = true := by
  have he : (Parse ctx s b).1 = Status.err kUnknownTraceTypeErr := by
    rw [parse_unbound ctx s b h, hk]
    rfl
  refine ⟨he, ?_, by decide⟩
  rw [he]
  exact fun hcontra => Status.noConfusion hcontra

/-- Witness for C6 at a concrete input: an unrecognizable chunk yields
the unknown-trace-type error carrying the marker. -/
theorem unknown_type_err_fmt_marker_witness :
    (Parse ctxAllOn initState [0xff]).1 = Status.err kUnknownTraceTypeErr
    ∧ (Parse ctxAllOn initState [0xff]).1 ≠ Status.ok
    ∧ strContains kUnknownTraceTypeErr kErrFmtMarker = true :=
  unknown_type_err_fmt_marker ctxAllOn initState [0xff] rfl (by decide)

theorem countPidZero_parseSeq (ctx : Context) (s : ParserState)
    (bs : List (List Nat)) (h : s.reader.isSome = true) :
    countPidZero (ParseSeq ctx s bs).log = countPidZero s.log := by
  obtain ⟨r, hr⟩ := Option.isSome_iff_exists.mp h
  rw [parseSeq_bound ctx r bs s hr]
  simp [countPidZero_append, countPidZero_map_forward]

theorem pidZeroPrecedes_parseSeq (ctx : Context) (s : ParserState)
    (bs : List (List Nat)) (h : s.reader.isSome = true)
    (hp : pidZeroPrecedesForwards s.log = true) :
    pidZeroPrecedesForwards (ParseSeq ctx s bs).log = true := by
  obtain ⟨r, hr⟩ := Option.isSome_iff_exists.mp h
  rw [parseSeq_bound ctx r bs s hr]
  exact pidZeroPrecedesForwards_append _ _ hp

/-- C7: over a whole trace whose first `Parse` call succeeds, the
process tracker's ignore-PID-zero notification fires exactly once when
the sniffed kind is proto or systrace — and before any chunk is handed
to the bound reader — and never fires for any other kind, no matter how
many further chunks are fed. -/
theorem pid_zero_notified_once (ctx : Context) (b : List Nat)
    (bs : List (List Nat)) (hok : (Parse ctx initState b).1 = Status.ok) :
    ((GuessTraceType b = TraceType.kProtoTraceType ∨
      GuessTraceType b = TraceType.kSystraceTraceType) →
        countPidZero (ParseSeq ctx (Parse ctx initState b).2 bs).log = 1
        ∧ pidZeroPrecedesForwards
            (ParseSeq ctx (Parse ctx initState b).2 bs).log = true)
    ∧ (GuessTraceType b ≠ TraceType.kProtoTraceType →
       GuessTraceType b ≠ TraceType.kSystraceTraceType →
        countPidZero (ParseSeq ctx (Parse ctx initState b).2 bs).log = 0) := by
  have h0 : initState.reader = none := rfl
  rw [parse_unbound ctx initState b h0] at hok ⊢
  revert hok
  cases ht : GuessTraceType b <;> intro hok
  case kJsonTraceType =>
    constructor
    · intro hd
      rcases hd with hd | hd
      · cases hd
      · cases hd
    · intro _ _
      cases hjt : ctx.json_trace_tokenizer_present
      · simp [BindOnFirstChunk, hjt] at hok
      · cases hjp : ctx.json_trace_parser_present
        · simp [BindOnFirstChunk, hjt, hjp] at hok
        · refine Eq.trans (countPidZero_parseSeq ctx _ bs ?_) ?_
          · simp [BindOnFirstChunk, hjt, hjp]
          · simp [BindOnFirstChunk, hjt, hjp, initState, countPidZero]
  case kProtoTraceType =>
    constructor
    · intro _
      constructor
      · refine Eq.trans (countPidZero_parseSeq ctx _ bs ?_) ?_
        · simp [BindOnFirstChunk]
        · simp [BindOnFirstChunk, initState, countPidZero]
      · refine pidZeroPrecedes_parseSeq ctx _ bs ?_ ?_
        · simp [BindOnFirstChunk]
        · simp [BindOnFirstChunk, initState, pidZeroPrecedesForwards]
    · intro hd _
      exact absurd rfl hd
  case kNinjaLogTraceType =>
    constructor
    · intro hd
      rcases hd with hd | hd
      · cases hd
      · cases hd
    · intro _ _
      refine Eq.trans (countPidZero_parseSeq ctx _ bs ?_) ?_
      · simp [BindOnFirstChunk]
      · simp [BindOnFirstChunk, initState, countPidZero]
  case kFuchsiaTraceType =>
    constructor
    · intro hd
      rcases hd with hd | hd
      · cases hd
      · cases hd
    · intro _ _
      cases hfp : ctx.fuchsia_trace_parser_present
      · simp [BindOnFirstChunk, hfp] at hok
      · cases hft : ctx.fuchsia_trace_tokenizer_present
        · simp [BindOnFirstChunk, hfp, hft] at hok
        · refine Eq.trans (countPidZero_parseSeq ctx _ bs ?_) ?_
          · simp [BindOnFirstChunk, hfp, hft]
          · simp [BindOnFirstChunk, hfp, hft, initState, countPidZero]
  case kSystraceTraceType =>
    constructor
    · intro _
      cases hsp : ctx.systrace_reader_present
      · simp [BindOnFirstChunk, hsp] at hok
      · constructor
        · refine Eq.trans (countPidZero_parseSeq ctx _ bs ?_) ?_
          · simp [BindOnFirstChunk, hsp]
          · simp [BindOnFirstChunk, hsp, initState, countPidZero]
        · refine pidZeroPrecedes_parseSeq ctx _ bs ?_ ?_
          · simp [BindOnFirstChunk, hsp]
          · simp [BindOnFirstChunk, hsp, initState, pidZeroPrecedesForwards]
    · intro _ hd
      exact absurd rfl hd
  case kGzipTraceType =>
    constructor
    · intro hd
      rcases hd with hd | hd
      · cases hd
      · cases hd
    · intro _ _
      cases hgz : ctx.gzip_reader_present
      · simp [BindOnFirstChunk, hgz] at hok
      · refine Eq.trans (countPidZero_parseSeq ctx _ bs ?_) ?_
        · simp [BindOnFirstChunk, hgz]
        · simp [BindOnFirstChunk, hgz, initState, countPidZero]
  case kCtraceTraceType =>
    constructor
    · intro hd
      rcases hd with hd | hd
      · cases hd
      · cases hd
    · intro _ _
      cases hgz : ctx.gzip_reader_present
      · simp [BindOnFirstChunk, hgz] at hok
      · refine Eq.trans (countPidZero_parseSeq ctx _ bs ?_) ?_
        · simp [BindOnFirstChunk, hgz]
        · simp [BindOnFirstChunk, hgz, initState, countPidZero]
  case kUnknownTraceType =>
    exact absurd hok (by simp [BindOnFirstChunk])

/-- Witness for C7 at concrete inputs: a proto first chunk followed by
two more chunks produces exactly one notification, placed before any
forwarded chunk. -/
theorem pid_zero_notified_once_witness :
    countPidZero
        (ParseSeq ctxAllOn (Parse ctxAllOn initState [0x0a]).2
          [[0x01], [0x02]]).log = 1
    ∧ pidZeroPrecedesForwards
        (ParseSeq ctxAllOn (Parse ctxAllOn initState [0x0a]).2
          [[0x01], [0x02]]).log = true :=
  (pid_zero_notified_once ctxAllOn [0x0a] [[0x01], [0x02]] (by decide)).1
    (Or.inl (by decide))

/-- Counterexample to C8 as stated: a ninja-log first chunk is parsed
successfully, yet no reordering engine is instantiated — the sorter
stays absent (and the same holds for systrace and gzip chunks). -/
theorem ninja_no_sorter_counterexample :
    (Parse ctxAllOn initState kNinjaLogMagic).1 = Status.ok
    ∧ (Parse ctxAllOn initState kNinjaLogMagic).2.reader =
        some ReaderKind.ninjaLogReader
    ∧ (Parse ctxAllOn initState kNinjaLogMagic).2.sorter = none := by
  decide

/-- C8 amended: on every successful first `Parse` call a reader is
bound, the chunk is forwarded to it as the final action of the call (no
chunk is forwarded earlier in the call), and a reordering engine is
instantiated with the chosen sort mode exactly for the JSON, Fuchsia and
proto kinds — full sort for JSON and Fuchsia, the converted
configuration mode for proto — while the ninja-log, systrace, gzip and
ctrace kinds bind their reader directly, leaving the sorter untouched. -/
theorem sorter_instantiation_by_kind (ctx : Context) (s : ParserState)
    (b : List Nat) (h : s.reader = none)
    (hok : (Parse ctx s b).1 = Status.ok) :
    (Parse ctx s b).2.reader ≠ none
    ∧ (∃ mid, (Parse ctx s b).2.log = s.log ++ mid ++ [Event.readerParse b]
        ∧ countForward mid = 0)
    ∧ ((GuessTraceType b = TraceType.kJsonTraceType ∨
        GuessTraceType b = TraceType.kFuchsiaTraceType) →
        (Parse ctx s b).2.sorter = some TraceSorter.SortingMode.kFullSort)
    ∧ (GuessTraceType b = TraceType.kProtoTraceType →
        (Parse ctx s b).2.sorter = some (ConvertSortingMode ctx.sorting_mode))
    ∧ ((GuessTraceType b = TraceType.kNinjaLogTraceType ∨
        GuessTraceType b = TraceType.kSystraceTraceType ∨
        GuessTraceType b = TraceType.kGzipTraceType ∨
        GuessTraceType b = TraceType.kCtraceTraceType) →
        (Parse ctx s b).2.sorter = s.sorter) := by
  rw [parse_unbound ctx s b h] at hok ⊢
  revert hok
  cases ht : GuessTraceType b <;> intro hok
  case kJsonTraceType =>
    cases hjt : ctx.json_trace_tokenizer_present
    · simp [BindOnFirstChunk, hjt] at hok
    · cases hjp : ctx.json_trace_parser_present
      · simp [BindOnFirstChunk, hjt, hjp] at hok
      · refine ⟨?_, ⟨[Event.sniff TraceType.kJsonTraceType,
                      Event.sorterSet TraceSorter.SortingMode.kFullSort],
                     ?_, rfl⟩, fun _ => ?_, fun hd => ?_, fun hd => ?_⟩
        · simp [BindOnFirstChunk, hjt, hjp]
        · simp [BindOnFirstChunk, hjt, hjp]
        · simp [BindOnFirstChunk, hjt, hjp]
        · cases hd
        · rcases hd with hd | hd | hd | hd <;> cases hd
  case kProtoTraceType =>
    refine ⟨?_, ⟨[Event.sniff TraceType.kProtoTraceType,
                  Event.sorterSet (ConvertSortingMode ctx.sorting_mode),
                  Event.pidZeroIgnored], ?_, rfl⟩,
            fun hd => ?_, fun _ => ?_, fun hd => ?_⟩
    · simp [BindOnFirstChunk]
    · simp [BindOnFirstChunk]
    · rcases hd with hd | hd <;> cases hd
    · simp [BindOnFirstChunk]
    · rcases hd with hd | hd | hd | hd <;> cases hd
  case kNinjaLogTraceType =>
    refine ⟨?_, ⟨[Event.sniff TraceType.kNinjaLogTraceType], ?_, rfl⟩,
            fun hd => ?_, fun hd => ?_, fun _ => ?_⟩
    · simp [BindOnFirstChunk]
    · simp [BindOnFirstChunk]
    · rcases hd with hd | hd <;> cases hd
    · cases hd
    · simp [BindOnFirstChunk]
  case kFuchsiaTraceType =>
    cases hfp : ctx.fuchsia_trace_parser_present
    · simp [BindOnFirstChunk, hfp] at hok
    · cases hft : ctx.fuchsia_trace_tokenizer_present
      · simp [BindOnFirstChunk, hfp, hft] at hok
      · refine ⟨?_, ⟨[Event.sniff TraceType.kFuchsiaTraceType,
                      Event.sorterSet TraceSorter.SortingMode.kFullSort],
                     ?_, rfl⟩, fun _ => ?_, fun hd => ?_, fun hd => ?_⟩
        · simp [BindOnFirstChunk, hfp, hft]
        · simp [BindOnFirstChunk, hfp, hft]
        · simp [BindOnFirstChunk, hfp, hft]
        · cases hd
        · rcases hd with hd | hd | hd | hd <;> cases hd
  case kSystraceTraceType =>
    cases hsp : ctx.systrace_reader_present
    · simp [BindOnFirstChunk, hsp] at hok
    · refine ⟨?_, ⟨[Event.sniff TraceType.kSystraceTraceType,
                    Event.pidZeroIgnored], ?_, rfl⟩,
              fun hd => ?_, fun hd => ?_, fun _ => ?_⟩
      · simp [BindOnFirstChunk, hsp]
      · simp [BindOnFirstChunk, hsp]
      · rcases hd with hd | hd <;> cases hd
      · cases hd
      · simp [BindOnFirstChunk, hsp]
  case kGzipTraceType =>
    cases hgz : ctx.gzip_reader_present
    · simp [BindOnFirstChunk, hgz] at hok
    · refine ⟨?_, ⟨[Event.sniff TraceType.kGzipTraceType], ?_, rfl⟩,
              fun hd => ?_, fun hd => ?_, fun _ => ?_⟩
      · simp [BindOnFirstChunk, hgz]
      · simp [BindOnFirstChunk, hgz]
      · rcases hd with hd | hd <;> cases hd
      · cases hd
      · simp [BindOnFirstChunk, hgz]
  case kCtraceTraceType =>
    cases hgz : ctx.gzip_reader_present
    · simp [BindOnFirstChunk, hgz] at hok
    · refine ⟨?_, ⟨[Event.sniff TraceType.kCtraceTraceType], ?_, rfl⟩,
              fun hd => ?_, fun hd => ?_, fun _ => ?_⟩
      · simp [BindOnFirstChunk, hgz]
      · simp [BindOnFirstChunk, hgz]
      · rcases hd with hd | hd <;> cases hd
      · cases hd
      · simp [BindOnFirstChunk, hgz]
  case kUnknownTraceType =>
    exact absurd hok (by simp [BindOnFirstChunk])

/-- Witness for C8's amended theorem at concrete inputs: a JSON first
chunk binds a reader and instantiates the full-sort engine. -/
theorem sorter_instantiation_by_kind_witness :
    (Parse ctxAllOn initState kJsonChunk).2.reader ≠ none
    ∧ (Parse ctxAllOn initState kJsonChunk).2.sorter =
        some TraceSorter.SortingMode.kFullSort :=
  ⟨(sorter_instantiation_by_kind ctxAllOn initState kJsonChunk rfl
      (by decide)).1,
   (sorter_instantiation_by_kind ctxAllOn initState kJsonChunk rfl
      (by decide)).2.2.1 (Or.inl (by decide))⟩

/-- C9: `NotifyEndOfFile` dereferences the reader pointer: called while
the pipeline is still unbound (no `Parse` has succeeded) it cannot
proceed to any defined state, and called after binding it forwards the
end-of-stream signal to the bound reader. -/
theorem notify_end_of_file_spec (s : ParserState) :
    (s.reader = none → NotifyEndOfFile s = none)
    ∧ (∀ r : ReaderKind, s.reader = some r →
        NotifyEndOfFile s =
          some { s with log := s.log ++ [Event.readerEof] }) := by
  constructor
  · intro h
    unfold NotifyEndOfFile
    rw [h]
  · intro r h
    unfold NotifyEndOfFile
    rw [h]

/-- Witness for C9 at concrete states: end-of-file before any feed does
not proceed; after binding it forwards the signal. -/
theorem notify_end_of_file_spec_witness :
    NotifyEndOfFile initState = none
    ∧ NotifyEndOfFile boundProtoState =
        some { boundProtoState with
               log := boundProtoState.log ++ [Event.readerEof] } :=
  ⟨(notify_end_of_file_spec initState).1 rfl,
   (notify_end_of_file_spec boundProtoState).2 ReaderKind.protoTraceReader rfl⟩

/-- C10: when the first chunk sniffs as systrace but the systrace
tokenizer is unavailable, `Parse` fails with the systrace-disabled error
and leaves the pipeline unbound, yet the PID-zero notification has
already fired before the availability check — the error path changes the
process tracker's state. -/
theorem systrace_binding_failure_side_effect (ctx : Context)
    (s : ParserState) (b : List Nat) (h : s.reader = none)
    (hk : GuessTraceType b = TraceType.kSystraceTraceType)
    (hs : ctx.systrace_reader_present = false) :
    (Parse ctx s b).1 = Status.err kSystraceDisabledErr
    ∧ countPidZero (Parse ctx s b).2.log = countPidZero s.log + 1
    ∧ (Parse ctx s b).2.reader = none
    ∧ (Parse ctx s b).2.log =
        s.log ++ [Event.sniff TraceType.kSystraceTraceType,
                  Event.pidZeroIgnored] := by
  rw [parse_unbound ctx s b h, hk]
  refine ⟨?_, ?_, ?_, ?_⟩
  · simp [BindOnFirstChunk, hs]
  · simp [BindOnFirstChunk, hs, countPidZero_append, countPidZero]
  · simp [BindOnFirstChunk, hs, h]
  · simp [BindOnFirstChunk, hs]

/-- Witness for C10 at concrete inputs: a single-space chunk (systrace)
under a build without the systrace tokenizer errors out after having
notified the process tracker once. -/
theorem systrace_binding_failure_side_effect_witness :
    (Parse ctxAllOff initState [0x20]).1 = Status.err kSystraceDisabledErr
    ∧ countPidZero (Parse ctxAllOff initState [0x20]).2.log =
        countPidZero initState.log + 1
    ∧ (Parse ctxAllOff initState [0x20]).2.reader = none
    ∧ (Parse ctxAllOff initState [0x20]).2.log =
        initState.log ++ [Event.sniff TraceType.kSystraceTraceType,
                          Event.pidZeroIgnored] :=
  systrace_binding_failure_side_effect ctxAllOff initState [0x20] rfl
    (by decide) rfl

end Perfetto
